import Mathlib

/-!
Shallow embedding of the interaction state machine of `src/app/page.tsx`
(the `MinecraftModsSearch` React component).

The component's `useState` hooks become the fields of `AppState`.  Each
asynchronous handler is split at its `await` point into a synchronous
`...Start` function (everything executed before the fetch suspends, returning
the updated state together with the request it issues, if any) and a
`...Resolve` function (the continuation that runs when the fetch settles,
applying an `HttpResult` outcome to the state current at that time).
Synchronous handlers are single functions.  The code never inspects
`response.ok`, so an HTTP outcome carries its status code and the result of
`response.json()` (`none` when parsing throws); `HttpResult.threw` covers a
`fetch` or `json` exception (transport failure).
-/

namespace SearchFE

/-- ModResult record from `page.tsx` (`interface ModResult`). -/
structure ModResult where
  id : Nat
  title : String
  authors : List String
  categories : List String
  description : String
  popularityRank : Nat
  websiteUrl : String
  deriving DecidableEq, Repr

/-- Response shape of `GET /search/` (`interface SearchResponse`). -/
structure SearchResponse where
  query : String
  results : List ModResult
  deriving DecidableEq, Repr

/-- Response shape of `GET /autocomplete/` (`interface AutocompleteResponse`). -/
structure AutocompleteResponse where
  query : String
  suggestions : List String
  deriving DecidableEq, Repr

/-- Response shape of `GET /summary/` (`interface SummaryResponse`). -/
structure SummaryResponse where
  mod_id : String
  title : String
  summary : String
  deriving DecidableEq, Repr

/-- Outcome of a `fetch` as observed by the component: either the fetch (or a
later `response.json()`) threw, or a response with some HTTP status arrived and
its body parsed to `some` value (or `none` when `json()` threw). -/
inductive HttpResult (α : Type) where
  | threw : HttpResult α
  | response : Nat → Option α → HttpResult α
  deriving DecidableEq, Repr

/-- An autocomplete request as issued by `fetchSuggestions`:
`/autocomplete/{endpoint}/?q={q}&size={size}`. -/
structure SuggestionRequest where
  endpoint : String
  q : String
  size : Nat
  deriving DecidableEq, Repr

/-- A search request as issued by `performSearch`:
`/search/?q={q}&size={size}&offset={offset}`. -/
structure SearchRequest where
  q : String
  size : Nat
  offset : Nat
  deriving DecidableEq, Repr

/-- A summary request as issued by `fetchSummary`: `/summary/{modId}/`. -/
structure SummaryRequest where
  modId : Nat
  deriving DecidableEq, Repr

/-- The component's state hooks.  `debounceTimer` models the `useRef` timer:
`some v` is a pending `setTimeout` that will call `fetchSuggestions v` when the
delay elapses, `none` means no timer is pending. -/
structure AppState where
  query : String
  searchResults : List ModResult
  suggestions : List String
  showSuggestions : Bool
  isSearching : Bool
  currentPage : Nat
  hasMoreResults : Bool
  selectedSummary : Option SummaryResponse
  isLoadingSummary : Bool
  useAdvancedAutocomplete : Bool
  searchQuery : String
  debounceTimer : Option String
  deriving DecidableEq, Repr

/-- Initial values of all `useState` hooks. -/
def initialState : AppState where
  query := ""
  searchResults := []
  suggestions := []
  showSuggestions := false
  isSearching := false
  currentPage := 0
  hasMoreResults := false
  selectedSummary := none
  isLoadingSummary := false
  useAdvancedAutocomplete := false
  searchQuery := ""
  debounceTimer := none

/-- `const [pageSize] = useState(10)` — never mutated. -/
def pageSize : Nat := 10

/-- The debounce delay passed to `setTimeout` in `handleInputChange` (ms). -/
def debounceDelayMs : Nat := 1000

/-- The guard `!searchTerm.trim()` used by the handlers: a JS string is falsy
after trimming exactly when every character is whitespace.  (`String.trim`
itself is defined by well-founded recursion in Lean and does not reduce, so
the guard is embedded as this equivalent decidable predicate.) -/
def isBlank (s : String) : Bool := s.data.all Char.isWhitespace

/-- `useAdvancedAutocomplete ? "sayt" : "suggester"` in `fetchSuggestions`. -/
def autocompleteEndpoint (s : AppState) : String :=
  if s.useAdvancedAutocomplete then "sayt" else "suggester"

/-- Synchronous part of `fetchSuggestions(searchTerm)`: the empty-trim guard
clears and hides the list without fetching; otherwise the request is issued
with the endpoint read from the current mode. -/
def fetchSuggestionsStart (s : AppState) (searchTerm : String) :
    AppState × Option SuggestionRequest :=
  if isBlank searchTerm then
    ({ s with suggestions := [], showSuggestions := false }, none)
  else
    (s, some { endpoint := autocompleteEndpoint s, q := searchTerm, size := 5 })

/-- Continuation of `fetchSuggestions` when its fetch settles.  A body that
parses applies unconditionally (`setSuggestions(data.suggestions)`,
`setShowSuggestions(true)`) — the code never checks `response.ok`; the catch
branch (fetch or `json()` threw) clears and hides the list. -/
def fetchSuggestionsResolve (s : AppState)
    (outcome : HttpResult AutocompleteResponse) : AppState :=
  match outcome with
  | .response _ (some data) =>
      { s with suggestions := data.suggestions, showSuggestions := true }
  | _ => { s with suggestions := [], showSuggestions := false }

/-- `handleInputChange(value)`: sets the query, clears any pending timer and
schedules a fresh one capturing `value`.  It issues no network request. -/
def handleInputChange (s : AppState) (value : String) : AppState :=
  { s with query := value, debounceTimer := some value }

/-- The pending debounce timer fires: the timer slot is cleared and
`fetchSuggestions` runs with the captured value.  With no pending timer
nothing happens. -/
def debounceElapse (s : AppState) : AppState × Option SuggestionRequest :=
  match s.debounceTimer with
  | none => (s, none)
  | some v => fetchSuggestionsStart { s with debounceTimer := none } v

/-- Synchronous part of `performSearch(searchTerm, page)`: the empty-trim
guard returns without touching anything; otherwise `isSearching := true`,
suggestions are hidden, `searchQuery` is committed, and the page request is
issued. -/
def performSearchStart (s : AppState) (searchTerm : String) (page : Nat) :
    AppState × Option SearchRequest :=
  if isBlank searchTerm then (s, none)
  else
    ({ s with isSearching := true, showSuggestions := false,
              searchQuery := searchTerm },
     some { q := searchTerm, size := pageSize, offset := page })

/-- Continuation of `performSearch` for page `page`.  On a parsed body:
page 0 replaces `searchResults`, page > 0 appends; `hasMoreResults` becomes
the comparison of the returned count with `pageSize`; `currentPage := page`.
In the catch branch (threw, or `json()` threw) results are cleared and
`hasMoreResults := false`; `currentPage` is untouched.  The `finally` clause
resets `isSearching` on every path. -/
def performSearchResolve (s : AppState) (page : Nat)
    (outcome : HttpResult SearchResponse) : AppState :=
  match outcome with
  | .response _ (some data) =>
      { s with
        searchResults :=
          if page = 0 then data.results else s.searchResults ++ data.results,
        hasMoreResults := data.results.length == pageSize,
        currentPage := page,
        isSearching := false }
  | _ =>
      { s with searchResults := [], hasMoreResults := false,
               isSearching := false }

/-- `handleSearch(searchTerm?)`: `searchTerm || query` falls back to the
current query when the argument is absent or the empty string; a trim-nonempty
term starts a page-0 search.  Note: the debounce timer is not touched. -/
def handleSearch (s : AppState) (searchTerm : Option String) :
    AppState × Option SearchRequest :=
  let term :=
    match searchTerm with
    | some t => if t = "" then s.query else t
    | none => s.query
  if isBlank term then (s, none) else performSearchStart s term 0

/-- `handleSuggestionClick(suggestion)`: adopt the suggestion as the query,
hide the list, and run a page-0 search for it. -/
def handleSuggestionClick (s : AppState) (suggestion : String) :
    AppState × Option SearchRequest :=
  performSearchStart
    { s with query := suggestion, showSuggestions := false } suggestion 0

/-- `loadMoreResults()`: guarded only by `searchQuery` being truthy (nonempty)
and no search being in flight; it then runs `performSearch(searchQuery,
currentPage + 1)`.  `hasMoreResults` is not consulted here. -/
def loadMoreResults (s : AppState) : AppState × Option SearchRequest :=
  if s.searchQuery ≠ "" ∧ s.isSearching = false then
    performSearchStart s s.searchQuery (s.currentPage + 1)
  else (s, none)

/-- Synchronous part of `fetchSummary(modId)`: sets the loading flag and
issues the request.  `selectedSummary` is not modified here. -/
def fetchSummaryStart (s : AppState) (modId : Nat) :
    AppState × SummaryRequest :=
  ({ s with isLoadingSummary := true }, { modId := modId })

/-- Continuation of `fetchSummary`: a parsed body is stored wholesale; the
catch branch only logs, leaving `selectedSummary` untouched; the `finally`
clause resets the loading flag on every path. -/
def fetchSummaryResolve (s : AppState) (outcome : HttpResult SummaryResponse) :
    AppState :=
  match outcome with
  | .response _ (some data) =>
      { s with selectedSummary := some data, isLoadingSummary := false }
  | _ => { s with isLoadingSummary := false }

/-- `handleKeyPress` on Escape: hide the suggestion list. -/
def handleEscape (s : AppState) : AppState :=
  { s with showSuggestions := false }

/-- A sequence of keystrokes, each arriving before the pending debounce timer
fires (so no `debounceElapse` occurs in between). -/
def typeSequence (s : AppState) (vs : List String) : AppState :=
  vs.foldl handleInputChange s

/-- A throwaway concrete result used by scenario states. -/
def mkMod (n : Nat) : ModResult where
  id := n
  title := "mod"
  authors := []
  categories := []
  description := ""
  popularityRank := 0
  websiteUrl := ""

/-! ## Helper lemmas -/

/-- When a session is committed (`searchQuery` not blank) and no search is in
flight, `loadMoreResults` issues the request for `currentPage + 1`. -/
theorem loadMore_run (s : AppState) (hq : isBlank s.searchQuery = false)
    (hs : s.isSearching = false) :
    loadMoreResults s =
      ({ s with isSearching := true, showSuggestions := false },
       some { q := s.searchQuery, size := pageSize,
              offset := s.currentPage + 1 }) := by
  have hq0 : s.searchQuery ≠ "" := by
    intro h
    rw [h] at hq
    exact absurd hq (by decide)
  unfold loadMoreResults performSearchStart
  rw [if_pos ⟨hq0, hs⟩, if_neg (by simp [hq])]

/-- A pending debounce timer holding a non-blank value fires into exactly one
suggestion request carrying that value. -/
theorem debounceElapse_fires (s : AppState) (v : String)
    (hv : s.debounceTimer = some v) (hne : isBlank v = false) :
    debounceElapse s =
      ({ s with debounceTimer := none },
       some { endpoint := autocompleteEndpoint s, q := v, size := 5 }) := by
  unfold debounceElapse
  rw [hv]
  show fetchSuggestionsStart { s with debounceTimer := none } v = _
  unfold fetchSuggestionsStart
  rw [if_neg (by simp [hne])]
  rfl

/-- Splitting a keystroke sequence at its last element: the final keystroke is
the last `handleInputChange` applied. -/
theorem typeSequence_append_single (s : AppState) (init : List String)
    (v : String) :
    typeSequence s (init ++ [v]) = handleInputChange (typeSequence s init) v := by
  unfold typeSequence
  rw [List.foldl_append]
  rfl

/-- Keystrokes do not change the autocomplete mode. -/
theorem typeSequence_mode (vs : List String) :
    ∀ s : AppState,
      (typeSequence s vs).useAdvancedAutocomplete = s.useAdvancedAutocomplete := by
  induction vs with
  | nil => intro s; rfl
  | cons v vs ih => intro s; exact ih (handleInputChange s v)

/-- Keystrokes do not change the endpoint chosen at fetch-issue time. -/
theorem autocompleteEndpoint_typeSequence (s : AppState) (vs : List String) :
    autocompleteEndpoint (typeSequence s vs) = autocompleteEndpoint s := by
  unfold autocompleteEndpoint
  rw [typeSequence_mode]

/-! ## C1 — suggestion responses and issue order -/

/-- Result of the earlier suggestion request A (issued for query text "a"). -/
def c1_respA : AutocompleteResponse where
  query := "a"
  suggestions := ["alpha"]

/-- Result of the later suggestion request B (issued for query text "ab"). -/
def c1_respB : AutocompleteResponse where
  query := "ab"
  suggestions := ["abbey", "abode"]

/-- Keystroke "a", debounce elapses: request A is issued. -/
def c1_afterIssueA : AppState × Option SuggestionRequest :=
  debounceElapse (handleInputChange initialState "a")

/-- Keystroke "ab", debounce elapses again: request B is issued while A is
still in flight. -/
def c1_afterIssueB : AppState × Option SuggestionRequest :=
  debounceElapse (handleInputChange c1_afterIssueA.1 "ab")

/-- B's response is applied first; A's response arrives afterwards and is also
applied. -/
def c1_final : AppState :=
  fetchSuggestionsResolve
    (fetchSuggestionsResolve c1_afterIssueB.1 (.response 200 (some c1_respB)))
    (.response 200 (some c1_respA))

/-- Claim C1 fails on the code: request A is issued, request B is issued
before A resolves, B's response is applied, and then A's late response is
still applied — the displayed list ends as A's result, not B's.  There is no
generation token anywhere in `fetchSuggestions`. -/
theorem C1_counterexample :
    c1_afterIssueA.2 = some { endpoint := "suggester", q := "a", size := 5 } ∧
    c1_afterIssueB.2 = some { endpoint := "suggester", q := "ab", size := 5 } ∧
    c1_final.suggestions = c1_respA.suggestions ∧
    c1_final.suggestions ≠ c1_respB.suggestions := by decide

/-- Claim C1 (amended): suggestion responses are applied in completion order,
not issue order.  Whatever was applied before, a successful response applied
afterwards overwrites the suggestion list with its own items and shows the
list — so a stale response that completes last wins. -/
theorem C1_theorem (s : AppState) (o : HttpResult AutocompleteResponse)
    (c : Nat) (r : AutocompleteResponse) :
    (fetchSuggestionsResolve (fetchSuggestionsResolve s o)
        (.response c (some r))).suggestions = r.suggestions ∧
    (fetchSuggestionsResolve (fetchSuggestionsResolve s o)
        (.response c (some r))).showSuggestions = true :=
  ⟨rfl, rfl⟩

/-! ## C2 — transport failure during loadMore -/

/-- A session that has accumulated two results and believes more exist. -/
def c2_before : AppState :=
  { initialState with
      searchQuery := "gear"
      searchResults := [mkMod 1, mkMod 2]
      hasMoreResults := true }

/-- The state after a `loadMoreResults` fetch fails with a transport error. -/
def c2_after : AppState :=
  performSearchResolve (loadMoreResults c2_before).1
    (c2_before.currentPage + 1) .threw

/-- Claim C2 fails on the code: the catch branch of `performSearch` is shared
by page 0 and loadMore, so a failed loadMore clears the accumulated results
and forces `hasMoreResults` to false instead of preserving them. -/
theorem C2_counterexample :
    c2_before.searchResults = [mkMod 1, mkMod 2] ∧
    c2_before.hasMoreResults = true ∧
    c2_after.searchResults = [] ∧
    c2_after.hasMoreResults = false := by decide

/-- Claim C2 (amended): on a transport failure during `loadMoreResults` the
previously accumulated results are cleared and `hasMoreResults` is set to
false — the same handling as a failed page-0 search; the error is only logged
to the console (no UI state records it) and `isSearching` is reset. -/
theorem C2_theorem (s : AppState) (hq : isBlank s.searchQuery = false)
    (hs : s.isSearching = false) :
    performSearchResolve (loadMoreResults s).1 (s.currentPage + 1) .threw =
      { s with showSuggestions := false, searchResults := [],
               hasMoreResults := false, isSearching := false } := by
  rw [loadMore_run s hq hs]
  rfl

/-- Witness for C2 at a concrete session. -/
theorem C2_witness :
    performSearchResolve (loadMoreResults c2_before).1
        (c2_before.currentPage + 1) .threw =
      { c2_before with showSuggestions := false, searchResults := [],
                       hasMoreResults := false, isSearching := false } :=
  C2_theorem c2_before (by decide) rfl

/-! ## C3 — when loadMore is a no-op -/

/-- A session whose last page was short: `hasMoreResults = false`. -/
def c3_st : AppState :=
  { initialState with
      searchQuery := "gravel"
      searchResults := [mkMod 0, mkMod 1, mkMod 2]
      hasMoreResults := false }

/-- Claim C3 fails on the code: with `hasMoreResults = false` but a committed
query and no fetch in flight, `loadMoreResults` still issues the request for
the next page and mutates the state — the guard never reads `hasMoreResults`. -/
theorem C3_counterexample :
    c3_st.hasMoreResults = false ∧
    c3_st.isSearching = false ∧
    c3_st.searchQuery ≠ "" ∧
    (loadMoreResults c3_st).2 =
      some { q := "gravel", size := pageSize, offset := 1 } ∧
    (loadMoreResults c3_st).1 ≠ c3_st := by decide

/-- Claim C3 (amended): `loadMoreResults` is a no-op exactly when no session
is committed (`searchQuery` empty) or a search fetch is in flight;
`hasMoreResults` is not consulted (the UI merely hides the button).
Otherwise it fetches `currentPage + 1` and a successful resolution appends
the returned items to `searchResults`. -/
theorem C3_theorem (s : AppState) :
    ((s.searchQuery = "" ∨ s.isSearching = true) →
      loadMoreResults s = (s, none)) ∧
    (isBlank s.searchQuery = false → s.isSearching = false →
      (loadMoreResults s).2 =
        some { q := s.searchQuery, size := pageSize,
               offset := s.currentPage + 1 } ∧
      ∀ c data,
        (performSearchResolve (loadMoreResults s).1 (s.currentPage + 1)
            (.response c (some data))).searchResults =
          s.searchResults ++ data.results) := by
  constructor
  · intro h
    unfold loadMoreResults
    rw [if_neg]
    rintro ⟨h1, h2⟩
    cases h with
    | inl h => exact h1 h
    | inr h => rw [h] at h2; exact absurd h2 (by decide)
  · intro hq hs
    rw [loadMore_run s hq hs]
    refine ⟨rfl, ?_⟩
    intro c data
    show (performSearchResolve _ (s.currentPage + 1) _).searchResults = _
    unfold performSearchResolve
    simp [Nat.succ_ne_zero]

/-- A committed session two pages in, used to instantiate C3. -/
def c3w_st : AppState :=
  { initialState with searchQuery := "wool", currentPage := 2 }

/-- Witness for C3: the no-op arm at an in-flight state and the fetch-and-
append arm at a committed session. -/
theorem C3_witness :
    loadMoreResults { initialState with isSearching := true } =
      ({ initialState with isSearching := true }, none) ∧
    (loadMoreResults c3w_st).2 =
      some { q := "wool", size := pageSize, offset := 3 } ∧
    (performSearchResolve (loadMoreResults c3w_st).1 3
        (.response 200 (some { query := "wool", results := [mkMod 9] }))).searchResults =
      c3w_st.searchResults ++ [mkMod 9] := by
  refine ⟨(C3_theorem _).1 (Or.inr rfl), ?_, ?_⟩
  · exact ((C3_theorem c3w_st).2 (by decide) rfl).1
  · exact ((C3_theorem c3w_st).2 (by decide) rfl).2 200
      { query := "wool", results := [mkMod 9] }

/-! ## C4 — page merge and the hasMore heuristic -/

/-- Scenario B page 0: exactly `pageSize` = 10 results for "tinkers". -/
def scenarioB_page0 : SearchResponse where
  query := "tinkers"
  results := (List.range 10).map mkMod

/-- Scenario B page 1: a short page of 3 results. -/
def scenarioB_page1 : SearchResponse where
  query := "tinkers"
  results := (List.range 3).map fun n => mkMod (10 + n)

/-- Scenario B end state: submit "tinkers", receive 10 items, load more,
receive 3 items. -/
def scenarioB_final : AppState :=
  performSearchResolve
    (loadMoreResults
      (performSearchResolve (performSearchStart initialState "tinkers" 0).1 0
        (.response 200 (some scenarioB_page0)))).1
    1 (.response 200 (some scenarioB_page1))

/-- Claim C4: a successful page-0 response replaces `searchResults` wholesale
and a page > 0 response appends in the order received; afterwards
`hasMoreResults` is exactly the comparison of the returned count with
`pageSize` = 10.  Scenario B: 10 items then 3 items ends with 13 results and
`hasMoreResults = false`. -/
theorem C4_theorem (s : AppState) (page c : Nat) (data : SearchResponse) :
    ((performSearchResolve s page (.response c (some data))).searchResults =
      if page = 0 then data.results else s.searchResults ++ data.results) ∧
    ((performSearchResolve s page (.response c (some data))).hasMoreResults =
      (data.results.length == pageSize)) ∧
    scenarioB_final.searchResults.length = 13 ∧
    scenarioB_final.hasMoreResults = false :=
  ⟨rfl, rfl, by decide, by decide⟩

/-! ## C5 — starting a summary load -/

/-- A summary already on display when a new item is selected. -/
def c5_oldSummary : SummaryResponse where
  mod_id := "3"
  title := "Old Mod"
  summary := "old text"

/-- State displaying `c5_oldSummary`. -/
def c5_st : AppState := { initialState with selectedSummary := some c5_oldSummary }

/-- Claim C5 fails on the code: `fetchSummary` sets the loading flag before
awaiting, but never clears `selectedSummary` — the previous summary is still
displayed verbatim while the new target loads. -/
theorem C5_counterexample :
    (fetchSummaryStart c5_st 7).1.isLoadingSummary = true ∧
    (fetchSummaryStart c5_st 7).1.selectedSummary = some c5_oldSummary :=
  ⟨rfl, rfl⟩

/-- Claim C5 (amended): initiating a summary load immediately sets the loading
flag, issues the request for the selected item, and leaves the previously
displayed summary untouched until the new response arrives. -/
theorem C5_theorem (s : AppState) (modId : Nat) :
    (fetchSummaryStart s modId).1.isLoadingSummary = true ∧
    (fetchSummaryStart s modId).1.selectedSummary = s.selectedSummary ∧
    (fetchSummaryStart s modId).2 = { modId := modId } :=
  ⟨rfl, rfl, rfl⟩

/-! ## C6 — summary transport failure -/

/-- A summary request in flight with nothing on display. -/
def c6_st : AppState := { initialState with isLoadingSummary := true }

/-- Claim C6 fails on the code: the catch branch of `fetchSummary` only logs;
after a transport failure no placeholder text exists — `selectedSummary` is
still `none`. -/
theorem C6_counterexample :
    (fetchSummaryResolve c6_st .threw).selectedSummary = none ∧
    (fetchSummaryResolve c6_st .threw).isLoadingSummary = false :=
  ⟨rfl, rfl⟩

/-- Claim C6 (amended): on a transport failure (or a body that fails to
parse) the summary state is left entirely unchanged apart from the loading
flag being reset; no placeholder is written and no retry is issued. -/
theorem C6_theorem (s : AppState) (c : Nat) :
    fetchSummaryResolve s .threw = { s with isLoadingSummary := false } ∧
    fetchSummaryResolve s (.response c none) =
      { s with isLoadingSummary := false } :=
  ⟨rfl, rfl⟩

/-! ## C7 — submit versus the pending debounce -/

/-- A state with a pending debounce timer captured at "iro". -/
def c7_st : AppState :=
  { initialState with query := "iron", debounceTimer := some "iro" }

/-- Claim C7 fails on the code: `handleSearch` never touches the debounce
timer, so after submitting, the pending timer still fires and issues a
suggestion fetch — submission does start the page-0 search, though. -/
theorem C7_counterexample :
    (handleSearch c7_st none).1.debounceTimer = some "iro" ∧
    (debounceElapse (handleSearch c7_st none).1).2 =
      some { endpoint := "suggester", q := "iro", size := 5 } ∧
    (handleSearch c7_st none).2 =
      some { q := "iron", size := pageSize, offset := 0 } := by decide

/-- Claim C7 (amended): invoking `handleSearch` leaves any pending debounce
timer untouched (the scheduled suggestion fetch will still fire when the
delay elapses) and immediately starts a page-0 search for the current query
when it is not blank. -/
theorem C7_theorem (s : AppState) (h : isBlank s.query = false) :
    (handleSearch s none).1.debounceTimer = s.debounceTimer ∧
    (handleSearch s none).2 =
      some { q := s.query, size := pageSize, offset := 0 } := by
  have hred : handleSearch s none = performSearchStart s s.query 0 := by
    show (if isBlank s.query then (s, none)
          else performSearchStart s s.query 0) = _
    rw [if_neg (by simp [h])]
  rw [hred]
  unfold performSearchStart
  rw [if_neg (by simp [h])]
  exact ⟨rfl, rfl⟩

/-- A second concrete pending-debounce state to instantiate C7. -/
def c7w_st : AppState :=
  { initialState with query := "creeper", debounceTimer := some "cree" }

/-- Witness for C7 at a concrete state. -/
theorem C7_witness :
    (handleSearch c7w_st none).1.debounceTimer = c7w_st.debounceTimer ∧
    (handleSearch c7w_st none).2 =
      some { q := c7w_st.query, size := pageSize, offset := 0 } :=
  C7_theorem c7w_st (by decide)

/-! ## C8 — debounced keystrokes -/

/-- Claim C8: after any run of keystrokes each arriving before the pending
timer fires (modelled as consecutive `handleInputChange` calls with no
intervening `debounceElapse`) and ending in a non-blank text, exactly one
timer is pending and it holds the last keystroke's text; when the delay
elapses exactly one suggestion fetch is issued, for that text, and the timer
slot is empty afterwards.  Keystrokes themselves issue no fetch
(`handleInputChange` returns no request by construction). -/
theorem C8_theorem (s : AppState) (init : List String) (v : String)
    (hne : isBlank v = false) :
    (typeSequence s (init ++ [v])).debounceTimer = some v ∧
    (debounceElapse (typeSequence s (init ++ [v]))).2 =
      some { endpoint := autocompleteEndpoint s, q := v, size := 5 } ∧
    (debounceElapse (typeSequence s (init ++ [v]))).1.debounceTimer = none := by
  have ht : (typeSequence s (init ++ [v])).debounceTimer = some v := by
    rw [typeSequence_append_single]
    rfl
  have hf := debounceElapse_fires (typeSequence s (init ++ [v])) v ht hne
  refine ⟨ht, ?_, ?_⟩
  · rw [hf, autocompleteEndpoint_typeSequence]
  · rw [hf]

/-- Witness for C8: three rapid keystrokes "c", "cr", "cre" produce one fetch
for "cre". -/
theorem C8_witness :
    (typeSequence initialState (["c", "cr"] ++ ["cre"])).debounceTimer =
      some "cre" ∧
    (debounceElapse (typeSequence initialState (["c", "cr"] ++ ["cre"]))).2 =
      some { endpoint := "suggester", q := "cre", size := 5 } ∧
    (debounceElapse
        (typeSequence initialState (["c", "cr"] ++ ["cre"]))).1.debounceTimer =
      none :=
  C8_theorem initialState ["c", "cr"] "cre" (by decide)

/-! ## C9 — suggestion responses ignore the status code -/

/-- Claim C9: `fetchSuggestions` never checks `response.ok`; any response
whose body parses is applied — the list is replaced and shown — for every
status code alike, and the clear-and-hide branch runs exactly when the fetch
or the JSON parse throws. -/
theorem C9_theorem (s : AppState) (status : Nat) (data : AutocompleteResponse) :
    fetchSuggestionsResolve s (.response status (some data)) =
      { s with suggestions := data.suggestions, showSuggestions := true } ∧
    fetchSuggestionsResolve s .threw =
      { s with suggestions := [], showSuggestions := false } ∧
    fetchSuggestionsResolve s (.response status none) =
      { s with suggestions := [], showSuggestions := false } :=
  ⟨rfl, rfl, rfl⟩

/-! ## C10 — currentPage across failures -/

/-- Claim C10: `currentPage` is written only in the success branch of
`performSearch`; any failing fetch leaves it unchanged, so after a failed
`loadMoreResults` for page `currentPage + 1` the next `loadMoreResults`
requests that same page again rather than skipping it. -/
theorem C10_theorem (s : AppState) (page c : Nat) (data : SearchResponse)
    (hq : isBlank s.searchQuery = false) (hs : s.isSearching = false) :
    (performSearchResolve s page .threw).currentPage = s.currentPage ∧
    (performSearchResolve s page (.response c none)).currentPage =
      s.currentPage ∧
    (performSearchResolve s page (.response c (some data))).currentPage =
      page ∧
    (loadMoreResults s).2 =
      some { q := s.searchQuery, size := pageSize,
             offset := s.currentPage + 1 } ∧
    (loadMoreResults
        (performSearchResolve (loadMoreResults s).1
          (s.currentPage + 1) .threw)).2 =
      some { q := s.searchQuery, size := pageSize,
             offset := s.currentPage + 1 } := by
  refine ⟨rfl, rfl, rfl, ?_, ?_⟩
  · rw [loadMore_run s hq hs]
  · rw [loadMore_run s hq hs]
    exact congrArg Prod.snd
      (loadMore_run
        { s with showSuggestions := false, searchResults := [],
                 hasMoreResults := false, isSearching := false }
        hq rfl)

/-- A session on page 4 used to instantiate C10. -/
def c10_st : AppState :=
  { initialState with
      searchQuery := "redstone"
      currentPage := 4
      hasMoreResults := true }

/-- Witness for C10: page 5 fails, `currentPage` stays 4, and the next
`loadMoreResults` asks for page 5 again. -/
theorem C10_witness :
    (performSearchResolve c10_st 5 .threw).currentPage = 4 ∧
    (performSearchResolve c10_st 5 (.response 200 none)).currentPage = 4 ∧
    (performSearchResolve c10_st 5
        (.response 200 (some { query := "redstone", results := [] }))).currentPage = 5 ∧
    (loadMoreResults c10_st).2 =
      some { q := "redstone", size := pageSize, offset := 5 } ∧
    (loadMoreResults
        (performSearchResolve (loadMoreResults c10_st).1 5 .threw)).2 =
      some { q := "redstone", size := pageSize, offset := 5 } :=
  C10_theorem c10_st 5 200 { query := "redstone", results := [] }
    (by decide) rfl

end SearchFE
